import Mathlib

/-!
Verification development for the STAR threat-raster decomposition and
hierarchical aggregation engine.

All rasters handled by the engine within one reduction are same-shaped
(mismatched windows are a fatal data error upstream, out of scope), so a
raster is embedded as a total function from an abstract cell-index type
`ι` to its cell value.  The grid library's lazy elementwise arithmetic is
embedded as pointwise arithmetic over exact rationals; an IEEE NaN cell is
embedded as `Option.none`, and `nan_to_num` is the library's NaN→0
replacement.  File writes are treated as atomic (the grid library is an
external collaborator: "write a georeferenced grid" either completes or
the writing process dies with a nonzero exit code).
-/

/-- A (NaN-free) raster: one rational value per cell. -/
abbrev Raster (ι : Type) : Type := ι → ℚ

/-- A raw raster as read from disk: a cell is either a number or NaN
(`none`). -/
abbrev RawRaster (ι : Type) : Type := ι → Option ℚ

variable {ι : Type}

/-- `RasterLayer.nan_to_num()`: replace every NaN cell by `0`. -/
def nan_to_num (r : RawRaster ι) : Raster ι := fun i => (r i).getD 0

/-- Elementwise raster addition (`merged_result + partial_raster...`). -/
def addRaster (a b : Raster ι) : Raster ι := fun i => a i + b i

/-- Re-reading a raster that was written after cleaning: no cell is NaN. -/
def toRaw (r : Raster ι) : RawRaster ι := fun i => some (r i)

/-- The all-zero raster. -/
def zeroRaster : Raster ι := fun _ => 0

/-- Elementwise sum of a list of rasters. -/
def sumList (rs : List (Raster ι)) : Raster ι := rs.foldl addRaster zeroRaster

/-- Elementwise sum of raw rasters after NaN→0 cleaning. -/
def sumCleaned (images : List (RawRaster ι)) : Raster ι :=
  sumList (images.map nan_to_num)

/-- One accumulation step of `worker` (threat_summation.py lines 29-38):
an empty accumulator takes the cleaned raster itself, otherwise the
cleaned raster is added elementwise. -/
def optFold (acc : Option (Raster ι)) (p : Raster ι) : Option (Raster ι) :=
  match acc with
  | none => some p
  | some m => some (addRaster m p)

/-- `worker` from threat_summation.py lines 15-42: pop rasters from the
queue (here: the list of rasters this worker receives, in order), clean
NaNs, fold into a running accumulator; write the accumulator out at the
end iff it is non-empty (the returned `Option`). -/
def worker (inputs : List (RawRaster ι)) : Option (Raster ι) :=
  inputs.foldl (fun acc p => optFold acc (nan_to_num p)) none

/-- The set of phase-1 temporary files in `tempdir`: each worker that
received at least one input writes exactly one partial-sum file. -/
def partFiles (dist : List (List (RawRaster ι))) : List (Raster ι) :=
  dist.filterMap worker

/-- The supervisor loop of `raster_sum` (threat_summation.py lines 69-79
and 93-103): join the workers in the order they die; on the first nonzero
exit code, kill the remaining siblings and `sys.exit` with that code. -/
def supervise (exitCodes : List ℤ) : Option ℤ :=
  exitCodes.find? (fun c => c != 0)

/-- `raster_sum` from threat_summation.py lines 44-103, as a function of
the scheduler's and environment's choices:

* `dist` — how the FIFO queue's contents end up split across the
  `processes_count` workers (`dist.length` is the worker count; its
  flattening is the input `images_list` as consumed, some permutation of
  the original list);
* `codes1` — the phase-1 workers' exit codes, in the order the
  supervisor joins them;
* `code2` — the single merge worker's exit code;
* `mergeOrder` — the order `Path(tempdir).glob("*.tif")` yields the
  partial files (some permutation of `partFiles dist`).

`Except.error c` is `sys.exit(c)`: the reduction aborts with exit code
`c` and nothing is published at the target path.  `Except.ok r` is normal
return, with `r` the raster written to `output_filename` (`none` when no
worker ever wrote anything, in which case no file is created). -/
def raster_sum (dist : List (List (RawRaster ι))) (codes1 : List ℤ)
    (code2 : ℤ) (mergeOrder : List (Raster ι)) :
    Except ℤ (Option (Raster ι)) :=
  match supervise codes1 with
  | some c => Except.error c
  | none =>
    if code2 ≠ 0 then Except.error code2
    else Except.ok (worker (mergeOrder.map toRaw))

-- Threat-code bucketing (threat_summation.py lines 105-164) ------------

/-- A threat code, embedded as its character list (e.g. `"2.1.1"`). -/
abbrev Code : Type := List Char

/-- Python's `code.split('.')`: split at every `'.'`; the empty string
splits to `[""]`. -/
def splitOnDot : List Char → List (List Char)
  | [] => [[]]
  | c :: rest =>
    if c = '.' then [] :: splitOnDot rest
    else
      match splitOnDot rest with
      | [] => [[c]]
      | s :: ss => (c :: s) :: ss

/-- Python's `".".join(segs)`. -/
def joinDots : List (List Char) → List Char
  | [] => []
  | [s] => s
  | s :: rest => s ++ '.' :: joinDots rest

/-- The literal bucket key `"top"`. -/
def topKey : Code := ['t', 'o', 'p']

/-- Bucket key computation of `reduce_from_species` (threat_summation.py
lines 144-158): `threat_code` is the parent directory name of the input
file; `assert len(levels) > 1`, then codes of 2 or 3 segments keep their
first two segments, anything else hits `assert False`.  `none` embeds an
assertion failure. -/
def leaf_bucket_key (threat_code : Code) : Option Code :=
  let levels := splitOnDot threat_code
  if levels.length > 1 then
    match levels.length with
    | 2 => some (joinDots (levels.take 2))
    | 3 => some (joinDots (levels.take 2))
    | _ => none
  else none

/-- Bucket key computation of `reduce_to_next_level` (threat_summation.py
lines 116-125): `code` is the file name without its `.tif` extension;
the key is the code with its last dot-segment dropped, or `"top"` when
that is the empty string. -/
def next_level_threat_id (code : Code) : Code :=
  let k := joinDots (splitOnDot code).dropLast
  if k = [] then topKey else k

/-- Insertion-ordered bucket update, as the Python
`buckets[key].append(filename) / buckets[key] = [filename]` on a dict. -/
def bucketInsert (bs : List (Code × List Code)) (k : Code) (f : Code) :
    List (Code × List Code) :=
  match bs with
  | [] => [(k, [f])]
  | (k', fs) :: rest =>
    if k' = k then (k', fs ++ [f]) :: rest else (k', fs) :: bucketInsert rest k f

/-- Grouping of files (identified by their code strings) into buckets by
a key function. -/
def mkBuckets (keyOf : Code → Code) (files : List Code) :
    List (Code × List Code) :=
  files.foldl (fun bs f => bucketInsert bs (keyOf f) f) []

/-- `reduce_to_next_level` (threat_summation.py lines 105-131), up to the
point where the per-bucket reductions start: an empty file list is
`sys.exit(f"No files in {rasters_directory}, aborting")`, a diagnostic
message and exit status 1; otherwise the files are grouped by
`next_level_threat_id` and each bucket is handed to `raster_sum`.
`Except.error` carries the diagnostic of the fatal exit. -/
def reduce_to_next_level (rasters_directory : List Char)
    (files : List Code) : Except (List Char) (List (Code × List Code)) :=
  if files = [] then
    Except.error ("No files in ".toList ++ rasters_directory ++ ", aborting".toList)
  else
    Except.ok (mkBuckets next_level_threat_id files)

-- Per-species decomposer (threat_processing.py lines 12-51) ------------

/-- Python integer true-division `a / b`: `ZeroDivisionError` when
`b == 0`, embedded as `Except.error ()`. -/
def pyIntDiv (a b : ℤ) : Except Unit ℚ :=
  if b = 0 then Except.error () else Except.ok ((a : ℚ) / (b : ℚ))

/-- `total_threat_weight = sum(x[1] for x in threat_data)`
(threat_processing.py line 43). -/
def total_threat_weight (threat_data : List (Code × ℤ)) : ℤ :=
  (threat_data.map Prod.snd).sum

/-- The per-threat loop of threat_processing.py lines 44-51: for each
`(threat_id, weight)` pair compute
`weighted_species * (weight / total_threat_weight)` and write it to
`{output_dir}/{threat_id}/{taxon_id}.tif`.  The first Python exception
(the `ZeroDivisionError` of `weight / total_threat_weight` when the
total is zero) aborts the loop; `Except.error ()` embeds that unhandled
exception. -/
def threat_loop (total : ℤ) (weighted_species : Raster ι) :
    List (Code × ℤ) → Except Unit (List (Code × Raster ι))
  | [] => Except.ok []
  | tw :: rest =>
    match pyIntDiv tw.2 total with
    | Except.error e => Except.error e
    | Except.ok pw =>
      match threat_loop total weighted_species rest with
      | Except.error e => Except.error e
      | Except.ok outs =>
        Except.ok ((tw.1, fun i => weighted_species i * pw) :: outs)

/-- `threat_processing_per_species` (threat_processing.py lines 12-51),
arithmetic core: `proportional_aoh_per_pixel = aoh / aoh_total`,
`weighted_species = proportional_aoh_per_pixel * category_weight`, then
one output raster per `(threat_id, weight)` pair.  On success the result
is the list of `(threat_id, raster)` outputs in record order. -/
def threat_processing_per_species (aoh : Raster ι) (aoh_total : ℚ)
    (category_weight : ℤ) (threat_data : List (Code × ℤ)) :
    Except Unit (List (Code × Raster ι)) :=
  let proportional_aoh_per_pixel : Raster ι := fun i => aoh i / aoh_total
  let weighted_species : Raster ι :=
    fun i => proportional_aoh_per_pixel i * (category_weight : ℚ)
  threat_loop (total_threat_weight threat_data) weighted_species threat_data

-- aoh_total sidecar (threat_processing.py lines 32-38) -----------------

/-- State of the optional sidecar file `aoh_path.with_suffix(".json")`:
absent (`open` raises `FileNotFoundError`), present but unreadable or
malformed (`open`/`json.load` raises an exception that is *not*
`FileNotFoundError`/`KeyError`, e.g. `JSONDecodeError` or
`PermissionError`), readable JSON without the `"aoh_total"` key
(`KeyError`), or well-formed with value `v`. -/
inductive SidecarState where
  | absent
  | unreadable
  | missingKey
  | wellFormed (v : ℚ)
deriving DecidableEq

/-- threat_processing.py lines 32-38: `try: ... aoh_total =
aoh_data["aoh_total"] except (FileNotFoundError, KeyError): aoh_total =
aoh.sum()`.  Only those two exception classes are handled; any other
exception escapes and kills the script (`Except.error ()`). -/
def read_aoh_total (s : SidecarState) (raster_total : ℚ) : Except Unit ℚ :=
  match s with
  | SidecarState.wellFormed v => Except.ok v
  | SidecarState.absent => Except.ok raster_total
  | SidecarState.missingKey => Except.ok raster_total
  | SidecarState.unreadable => Except.error ()

-- SpeciesReport (prepare_species/common.py lines 72-113) ---------------

/-- A Python object as stored on a `SpeciesReport`: `None`, scalars, or
a string-keyed dict (a `none` entry means the key is absent). -/
inductive PyObj where
  | pynone
  | pybool (b : Bool)
  | pyint (n : ℤ)
  | pystr (s : String)
  | pydict (d : String → Option PyObj)

/-- `SpeciesReport.REPORT_COLUMNS` (common.py lines 74-88). -/
def REPORT_COLUMNS : List String :=
  ["id_no", "assessment_id", "scientific_name", "has_api_data",
   "possibly_extinct", "has_systems", "not_terrestrial_system",
   "has_threats", "has_habitats", "keeps_habitats", "has_geometries",
   "keeps_geometries", "filename"]

/-- `SpeciesReport` state: the object's attribute dict (`vars(self)`).
The tracked dict is *not* separate state: it is whatever object the
ordinary attribute `"info"` currently binds — exactly as in Python,
where `__setattr__`, `__getattr__` and `as_row` all reach it through
`self.info`, so rebinding the `info` attribute changes what they see. -/
structure SpeciesReport where
  attrs : String → Option PyObj

/-- `__setattr__` (common.py lines 102-105).  A tracked name first runs
`self.info[name] = value`: a mutation of whatever `self.info` currently
refers to, raising `TypeError` (embedded `Except.error ()`) when that is
not a dict — including when the `info` attribute is missing, since
`__getattr__` then yields `None` — and only then does
`super().__setattr__` store the ordinary attribute.  An untracked name
(including `"info"` itself, which rebinds the tracked dict) only stores
the ordinary attribute. -/
def SpeciesReport.setattr (r : SpeciesReport) (name : String) (v : PyObj) :
    Except Unit SpeciesReport :=
  if name ∈ REPORT_COLUMNS then
    match r.attrs "info" with
    | some (PyObj.pydict d) =>
      Except.ok (SpeciesReport.mk (fun k =>
        if k = name then some v
        else if k = "info" then
          some (PyObj.pydict (fun j => if j = name then some v else d j))
        else r.attrs k))
    | _ => Except.error ()
  else
    Except.ok (SpeciesReport.mk (fun k =>
      if k = name then some v else r.attrs k))

/-- Attribute read.  A present ordinary attribute wins (Python calls
`__getattr__`, common.py lines 107-110, only when ordinary lookup
fails); a missing tracked name then reads `self.info[name]`, raising
(`Except.error ()`) on a missing key or a non-dict `info`; any other
missing name reads `None`. -/
def SpeciesReport.getattr (r : SpeciesReport) (name : String) :
    Except Unit PyObj :=
  match r.attrs name with
  | some v => Except.ok v
  | none =>
    if name ∈ REPORT_COLUMNS then
      match r.attrs "info" with
      | some (PyObj.pydict d) =>
        match d name with
        | some v => Except.ok v
        | none => Except.error ()
      | _ => Except.error ()
    else Except.ok PyObj.pynone

/-- Apply a sequence of attribute assignments in order, stopping at the
first raised exception. -/
def SpeciesReport.applyAll (r : SpeciesReport) :
    List (String × PyObj) → Except Unit SpeciesReport
  | [] => Except.ok r
  | p :: seq =>
    match r.setattr p.1 p.2 with
    | Except.error e => Except.error e
    | Except.ok r2 => r2.applyAll seq

/-- `{k: False for k in REPORT_COLUMNS}` (common.py line 91). -/
def baseDict : String → Option PyObj :=
  fun k => if k ∈ REPORT_COLUMNS then some (PyObj.pybool false) else none

/-- `__init__` (common.py lines 90-94): four attribute assignments in
order, each through `__setattr__` — first `self.info = {k: False ...}`
(an untracked name binding the dict object), then the three identity
fields. -/
def SpeciesReport.init (id_no assessment_id scientific_name : PyObj) :
    Except Unit SpeciesReport :=
  (SpeciesReport.mk (fun _ => none)).applyAll
    [("info", PyObj.pydict baseDict), ("id_no", id_no),
     ("assessment_id", assessment_id),
     ("scientific_name", scientific_name)]

/-- `[self.info[k] for k in REPORT_COLUMNS]`, left to right: `KeyError`
(embedded `Except.error ()`) on the first missing key. -/
def rowOf (d : String → Option PyObj) :
    List String → Except Unit (List PyObj)
  | [] => Except.ok []
  | k :: ks =>
    match d k with
    | none => Except.error ()
    | some v =>
      match rowOf d ks with
      | Except.error e => Except.error e
      | Except.ok vs => Except.ok (v :: vs)

/-- `as_row` (common.py lines 112-113): reads `self.info` — the current
`info` attribute — and subscripts it by every tracked column, raising
(`Except.error ()`) when it is not a dict or a key is missing. -/
def SpeciesReport.as_row (r : SpeciesReport) : Except Unit (List PyObj) :=
  match r.attrs "info" with
  | some (PyObj.pydict d) => rowOf d REPORT_COLUMNS
  | _ => Except.error ()

/-- Construct a report, apply an assignment sequence, read the row: the
observable `as_row()` behaviour after `__init__` plus arbitrary
attribute assignments. -/
def runReport (a b c : PyObj) (seq : List (String × PyObj)) :
    Except Unit (List PyObj) :=
  match SpeciesReport.init a b c with
  | Except.error e => Except.error e
  | Except.ok r =>
    match r.applyAll seq with
    | Except.error e => Except.error e
    | Except.ok r2 => r2.as_row

/-- The last value assigned to `k` in `seq`, else the default `dflt`. -/
def lastVal (k : String) (seq : List (String × PyObj)) (dflt : PyObj) :
    PyObj :=
  seq.foldl (fun acc p => if p.1 = k then p.2 else acc) dflt

/-- The ordinary attribute stored at `k` after `seq`, else the default. -/
def lastAttr (k : String) (seq : List (String × PyObj))
    (dflt : Option PyObj) : Option PyObj :=
  seq.foldl (fun acc p => if p.1 = k then some p.2 else acc) dflt

/-- Evolution of the tracked dict under an assignment sequence in which
only tracked names write through to it. -/
def updDict (d : String → Option PyObj) (seq : List (String × PyObj)) :
    String → Option PyObj :=
  seq.foldl (fun acc p =>
    if p.1 ∈ REPORT_COLUMNS then
      fun j => if j = p.1 then some p.2 else acc j
    else acc) d

/-- The tracked dict right after `__init__`. -/
def initDict (a b c : PyObj) : String → Option PyObj :=
  fun j =>
    if j = "scientific_name" then some c
    else if j = "assessment_id" then some b
    else if j = "id_no" then some a
    else baseDict j

/-- The attribute dict right after `__init__`. -/
def initAttrs (a b c : PyObj) : String → Option PyObj :=
  fun k =>
    if k = "scientific_name" then some c
    else if k = "assessment_id" then some b
    else if k = "id_no" then some a
    else if k = "info" then some (PyObj.pydict (initDict a b c))
    else none

/-- The report right after `__init__` (proved equal to the result of
`SpeciesReport.init`). -/
def initReport (a b c : PyObj) : SpeciesReport :=
  SpeciesReport.mk (initAttrs a b c)

-- Concrete example rasters, used by witnesses and counterexamples ------

/-- A single-cell raster whose only cell is NaN. -/
def rawNaN : RawRaster (Fin 1) := fun _ => none

/-- A single-cell raster whose only cell is `2`. -/
def rawTwo : RawRaster (Fin 1) := fun _ => some 2

/-- A single-cell raster whose only cell is `3`. -/
def rawThree : RawRaster (Fin 1) := fun _ => some 3

-- Basic algebra of the raster model -----------------------------------

theorem addRaster_apply (a b : Raster ι) (i : ι) :
    addRaster a b i = a i + b i := rfl

theorem nan_to_num_toRaw (r : Raster ι) : nan_to_num (toRaw r) = r := rfl

theorem foldl_addRaster_apply (rs : List (Raster ι)) (z : Raster ι) (i : ι) :
    rs.foldl addRaster z i = z i + (rs.map (fun r => r i)).sum := by
  induction rs generalizing z with
  | nil => simp
  | cons p rs ih =>
    simp only [List.foldl_cons, List.map_cons, List.sum_cons, ih]
    rw [addRaster_apply]
    ring

theorem sumList_apply (rs : List (Raster ι)) (i : ι) :
    sumList rs i = (rs.map (fun r => r i)).sum := by
  rw [sumList, foldl_addRaster_apply]
  simp [zeroRaster]

theorem sumList_perm {rs rs' : List (Raster ι)} (h : rs.Perm rs') :
    sumList rs = sumList rs' := by
  funext i
  rw [sumList_apply, sumList_apply]
  exact List.Perm.sum_eq (h.map _)

theorem sumCleaned_perm {l l' : List (RawRaster ι)} (h : l.Perm l') :
    sumCleaned l = sumCleaned l' := sumList_perm (h.map _)

theorem sumCleaned_append (l l' : List (RawRaster ι)) (i : ι) :
    sumCleaned (l ++ l') i = sumCleaned l i + sumCleaned l' i := by
  simp [sumCleaned, sumList_apply]

theorem foldl_optFold_some (rs : List (Raster ι)) (a : Raster ι) :
    rs.foldl optFold (some a) = some (rs.foldl addRaster a) := by
  induction rs generalizing a with
  | nil => rfl
  | cons p rs ih => simp [optFold, ih]

/-- A worker with at least one input produces exactly the cleaned
elementwise sum of its inputs. -/
theorem worker_eq_sum (l : List (RawRaster ι)) (h : l ≠ []) :
    worker l = some (sumCleaned l) := by
  have hfold : worker l = (l.map nan_to_num).foldl optFold none := by
    rw [worker, ← List.foldl_map]
  match l with
  | [] => exact absurd rfl h
  | p :: rest =>
    rw [hfold]
    simp only [List.map_cons, List.foldl_cons]
    show (rest.map nan_to_num).foldl optFold (some (nan_to_num p)) = _
    rw [foldl_optFold_some]
    congr 1
    funext i
    rw [foldl_addRaster_apply, sumCleaned, sumList_apply]
    simp

theorem worker_nil : worker ([] : List (RawRaster ι)) = none := rfl

/-- A worker with no inputs writes nothing. -/
theorem worker_eq_none {l : List (RawRaster ι)} (h : worker l = none) :
    l = [] := by
  by_contra hne
  rw [worker_eq_sum l hne] at h
  exact Option.some_ne_none _ h

/-- Cell-wise, the partial files of phase 1 sum to the cleaned sum of
everything the workers consumed. -/
theorem partFiles_sum (dist : List (List (RawRaster ι))) (i : ι) :
    ((partFiles dist).map (fun r => r i)).sum = sumCleaned dist.flatten i := by
  induction dist with
  | nil => simp [partFiles, sumCleaned, sumList_apply]
  | cons b dist ih =>
    rw [partFiles, List.filterMap_cons]
    by_cases hb : b = []
    · subst hb
      simp only [worker_nil, List.flatten_cons, List.nil_append]
      exact ih
    · rw [worker_eq_sum b hb]
      simp only [List.map_cons, List.sum_cons, List.flatten_cons]
      rw [sumCleaned_append]
      rw [← ih]
      rfl

theorem flatten_nil_of_partFiles_nil {dist : List (List (RawRaster ι))}
    (h : partFiles dist = []) : dist.flatten = [] := by
  induction dist with
  | nil => rfl
  | cons b dist ih =>
    rw [partFiles, List.filterMap_cons] at h
    cases hw : worker b with
    | some r => rw [hw] at h; exact absurd h (List.cons_ne_nil _ _)
    | none =>
      rw [hw] at h
      rw [List.flatten_cons, worker_eq_none hw, List.nil_append]
      exact ih h

theorem partFiles_ne_nil {dist : List (List (RawRaster ι))}
    (h : dist.flatten ≠ []) : partFiles dist ≠ [] :=
  fun hempty => h (flatten_nil_of_partFiles_nil hempty)

/-- Normal-form lemma: a failure-free run of `raster_sum` over a
distribution of `images` outputs exactly the cleaned elementwise sum of
`images`, whatever the distribution and merge order. -/
theorem raster_sum_ok (images : List (RawRaster ι))
    (dist : List (List (RawRaster ι))) (codes1 : List ℤ)
    (mergeOrder : List (Raster ι))
    (hne : images ≠ []) (hjoin : dist.flatten.Perm images)
    (hm : mergeOrder.Perm (partFiles dist))
    (hcs : ∀ c ∈ codes1, c = 0) :
    raster_sum dist codes1 0 mergeOrder = Except.ok (some (sumCleaned images)) := by
  have hfind : supervise codes1 = none := by
    rw [supervise, List.find?_eq_none]
    intro c hc
    simp [hcs c hc]
  rw [raster_sum, hfind]
  simp only [ne_eq, not_true_eq_false, if_neg, reduceIte]
  have hflat : dist.flatten ≠ [] := by
    intro h0
    rw [h0] at hjoin
    exact hne hjoin.nil_eq.symm
  have hmerge : mergeOrder ≠ [] := by
    intro h0
    rw [h0] at hm
    exact partFiles_ne_nil hflat hm.nil_eq.symm
  have hmap : (mergeOrder.map toRaw) ≠ [] := by
    simp [hmerge]
  rw [worker_eq_sum _ hmap]
  have h1 : sumCleaned (mergeOrder.map toRaw) = sumList mergeOrder := by
    rw [sumCleaned, List.map_map]
    have hid : (nan_to_num ∘ toRaw : Raster ι → Raster ι) = id := rfl
    rw [hid, List.map_id]
  have h2 : sumList (partFiles dist) = sumCleaned images := by
    funext i
    rw [sumList_apply, partFiles_sum, sumCleaned_perm hjoin]
  rw [h1, sumList_perm hm, h2]

-- Claim theorems -------------------------------------------------------

/-- Claim C2: permutation and worker-count invariance.  For a fixed
non-empty multiset of same-shaped input rasters, a failure-free
`raster_sum` run yields the same output whatever the permutation of the
input list, the worker count (`dist.length`), the queue distribution
across workers, and the merge-phase glob order; that common output is
precisely the mathematical elementwise sum of the NaN-cleaned inputs
(exactly, over exact arithmetic). -/
theorem claim_C2_raster_sum_invariant
    (images₁ images₂ : List (RawRaster ι))
    (dist₁ dist₂ : List (List (RawRaster ι)))
    (codes₁ codes₂ : List ℤ)
    (merge₁ merge₂ : List (Raster ι))
    (hne : images₁ ≠ []) (hperm : images₁.Perm images₂)
    (hd₁ : dist₁.flatten.Perm images₁) (hd₂ : dist₂.flatten.Perm images₂)
    (hm₁ : merge₁.Perm (partFiles dist₁)) (hm₂ : merge₂.Perm (partFiles dist₂))
    (hc₁ : ∀ c ∈ codes₁, c = 0) (hc₂ : ∀ c ∈ codes₂, c = 0) :
    raster_sum dist₁ codes₁ 0 merge₁ = raster_sum dist₂ codes₂ 0 merge₂ ∧
    raster_sum dist₁ codes₁ 0 merge₁ = Except.ok (some (sumCleaned images₁)) := by
  have h₁ := raster_sum_ok images₁ dist₁ codes₁ merge₁ hne hd₁ hm₁ hc₁
  have hne₂ : images₂ ≠ [] := by
    intro h0
    rw [h0] at hperm
    exact hne ((List.Perm.nil_eq hperm.symm).symm)
  have h₂ := raster_sum_ok images₂ dist₂ codes₂ merge₂ hne₂ hd₂ hm₂ hc₂
  refine ⟨?_, h₁⟩
  rw [h₁, h₂, sumCleaned_perm hperm]

theorem claim_C2_raster_sum_invariant_witness :
    ([rawTwo, rawThree] : List (RawRaster (Fin 1))) ≠ [] ∧
    raster_sum [[rawTwo], [rawThree]] [0, 0] 0 (partFiles [[rawTwo], [rawThree]]) =
      raster_sum [[rawThree, rawTwo]] [0] 0 (partFiles [[rawThree, rawTwo]]) :=
  ⟨List.cons_ne_nil _ _,
   (claim_C2_raster_sum_invariant [rawTwo, rawThree] [rawThree, rawTwo]
      [[rawTwo], [rawThree]] [[rawThree, rawTwo]] [0, 0] [0]
      (partFiles [[rawTwo], [rawThree]]) (partFiles [[rawThree, rawTwo]])
      (List.cons_ne_nil _ _) (List.Perm.swap _ _ _)
      (List.Perm.refl _) (List.Perm.refl _)
      (List.Perm.refl _) (List.Perm.refl _)
      (by decide) (by decide)).1⟩

/-- Claim C4 counterexample: the claim quantifies over *every* list of
same-shaped inputs, but reducing the empty list produces no output
raster at all (`none`) rather than the (empty) sum raster: the run
completes with no file written. -/
theorem claim_C4_counterexample :
    raster_sum ([[]] : List (List (RawRaster (Fin 1)))) [0] 0 [] =
      Except.ok none ∧
    (Except.ok none : Except ℤ (Option (Raster (Fin 1)))) ≠
      Except.ok (some (sumCleaned ([] : List (RawRaster (Fin 1))))) := by
  constructor
  · rfl
  · intro h
    exact Option.some_ne_none _ (Except.ok.inj h).symm

/-- Claim C4 (amended to non-empty input lists): every failure-free
`raster_sum` run replaces each NaN cell of each input by `0` before
folding it into the accumulator, so the output is the elementwise sum of
the NaN-cleaned inputs. -/
theorem claim_C4_nan_neutrality (images : List (RawRaster ι))
    (dist : List (List (RawRaster ι))) (codes : List ℤ)
    (merge : List (Raster ι))
    (hne : images ≠ []) (hd : dist.flatten.Perm images)
    (hm : merge.Perm (partFiles dist)) (hc : ∀ c ∈ codes, c = 0) :
    raster_sum dist codes 0 merge =
      Except.ok (some (sumList (images.map nan_to_num))) :=
  raster_sum_ok images dist codes merge hne hd hm hc

/-- Witness for C4, the spec's own example: single-cell rasters valued
NaN, 2, 3 sum to 5. -/
theorem claim_C4_nan_neutrality_witness :
    ([rawNaN, rawTwo, rawThree] : List (RawRaster (Fin 1))) ≠ [] ∧
    raster_sum [[rawNaN, rawTwo, rawThree]] [0] 0
        (partFiles [[rawNaN, rawTwo, rawThree]]) =
      Except.ok (some (sumList ([rawNaN, rawTwo, rawThree].map nan_to_num))) ∧
    sumList ([rawNaN, rawTwo, rawThree].map nan_to_num) = fun _ => (5 : ℚ) := by
  refine ⟨List.cons_ne_nil _ _, ?_, ?_⟩
  · exact claim_C4_nan_neutrality [rawNaN, rawTwo, rawThree]
      [[rawNaN, rawTwo, rawThree]] [0] (partFiles [[rawNaN, rawTwo, rawThree]])
      (List.cons_ne_nil _ _) (List.Perm.refl _) (List.Perm.refl _) (by decide)
  · funext i
    rw [sumList_apply]
    simp [rawNaN, rawTwo, rawThree, nan_to_num]
    norm_num

/-- Claim C5 counterexample: reducing a bucket holding exactly one
raster does *not* leave every cell unchanged — a NaN cell of the input
comes out as `0`.  Here the single input's only cell is NaN (`none`) but
the written output's only cell is `0`. -/
theorem claim_C5_counterexample :
    raster_sum [[rawNaN]] [0] 0 (partFiles [[rawNaN]]) =
      Except.ok (some (nan_to_num rawNaN)) ∧
    toRaw (nan_to_num rawNaN) ≠ rawNaN := by
  constructor
  · rfl
  · intro h
    have := congrFun h 0
    simp [toRaw, nan_to_num, rawNaN] at this

/-- Claim C5 (amended): reducing a bucket of exactly one raster, with
any worker count and scheduling, outputs that raster with its NaN cells
replaced by `0` — so it is unchanged cell-for-cell whenever it has no
NaN cell. -/
theorem claim_C5_single_input (r : RawRaster ι)
    (dist : List (List (RawRaster ι))) (codes : List ℤ)
    (merge : List (Raster ι))
    (hd : dist.flatten.Perm [r]) (hm : merge.Perm (partFiles dist))
    (hc : ∀ c ∈ codes, c = 0) :
    raster_sum dist codes 0 merge = Except.ok (some (nan_to_num r)) := by
  have h := raster_sum_ok [r] dist codes merge (List.cons_ne_nil _ _) hd hm hc
  rw [h]
  have : sumCleaned [r] = nan_to_num r := by
    funext i
    rw [sumCleaned, sumList_apply]
    simp
  rw [this]

theorem claim_C5_single_input_witness :
    (([[rawTwo]] : List (List (RawRaster (Fin 1)))).flatten).Perm [rawTwo] ∧
    raster_sum [[rawTwo]] [0, 0] 0 (partFiles [[rawTwo]]) =
      Except.ok (some (nan_to_num rawTwo)) ∧
    nan_to_num rawTwo = fun _ => (2 : ℚ) :=
  ⟨List.Perm.refl _,
   claim_C5_single_input rawTwo [[rawTwo]] [0, 0] (partFiles [[rawTwo]])
     (List.Perm.refl _) (List.Perm.refl _) (by decide),
   rfl⟩

/-- Claim C3: worker-failure abort.  If every nonzero worker exit code in
a `raster_sum` run equals `c` (in particular when exactly one worker
fails, with code `c`) and at least one worker does exit nonzero, the
reduction aborts via `sys.exit` propagating exactly `c`, and no output is
published at the requested target path (`Except.error`, never
`Except.ok`).  The supervisor's kill-the-siblings behaviour is embedded
in `supervise` stopping at the first nonzero exit code it joins. -/
theorem claim_C3_worker_failure_abort (dist : List (List (RawRaster ι)))
    (codes1 : List ℤ) (code2 : ℤ) (merge : List (Raster ι)) (c : ℤ)
    (hc : c ≠ 0) (hmem : c ∈ codes1 ++ [code2])
    (hall : ∀ x ∈ codes1 ++ [code2], x = 0 ∨ x = c) :
    raster_sum dist codes1 code2 merge = Except.error c ∧
    ∀ r, raster_sum dist codes1 code2 merge ≠ Except.ok r := by
  have herr : raster_sum dist codes1 code2 merge = Except.error c := by
    cases hfind : supervise codes1 with
    | some x =>
      have hx : x ∈ codes1 := List.mem_of_find?_eq_some hfind
      have hxne : x ≠ 0 := by
        have := List.find?_some hfind
        simpa using this
      have hxc : x = c := by
        rcases hall x (List.mem_append_left _ hx) with h0 | h0
        · exact absurd h0 hxne
        · exact h0
      rw [raster_sum, hfind, hxc]
    | none =>
      have hzero : ∀ x ∈ codes1, x = 0 := by
        intro x hx
        have := List.find?_eq_none.mp hfind x hx
        simpa using this
      have hc2 : c = code2 := by
        rcases List.mem_append.mp hmem with h | h
        · exact absurd (hzero c h) hc
        · simpa using h
      rw [raster_sum, hfind]
      simp only [ne_eq, ite_not]
      rw [if_neg]
      · rw [hc2]
      · rw [← hc2]
        exact hc
  exact ⟨herr, fun r h => by rw [herr] at h; exact Except.noConfusion h⟩

theorem claim_C3_worker_failure_abort_witness :
    (3 : ℤ) ≠ 0 ∧
    raster_sum ([[rawTwo], [rawThree]] : List (List (RawRaster (Fin 1))))
      [0, 3] 0 [] = Except.error 3 :=
  ⟨by decide,
   (claim_C3_worker_failure_abort [[rawTwo], [rawThree]] [0, 3] 0 [] 3
     (by decide) (by decide) (by decide)).1⟩

/-- Claim C8 counterexample: `raster_sum` on an *empty* input list is not
fatal.  With any worker count (here 2), all workers receive no paths,
exit 0 without writing partial files, the merge worker writes nothing,
and the call returns normally having created no output file — the empty
bucket is silently skipped, not rejected. -/
theorem claim_C8_counterexample :
    ([[], []] : List (List (RawRaster (Fin 1)))).flatten = [] ∧
    raster_sum ([[], []] : List (List (RawRaster (Fin 1)))) [0, 0] 0 [] =
      Except.ok none := by
  exact ⟨rfl, rfl⟩

/-- Claim C8 (amended): a level of aggregation
(`reduce_to_next_level`) invoked on a directory containing zero raster
files terminates immediately with a diagnostic message and nonzero exit
status (`sys.exit(str)` exits with status 1) before producing any output;
but the `raster_sum` primitive itself, given an empty input list,
completes *successfully* with no output file rather than failing. -/
theorem claim_C8_empty_input (dir : List Char) (files : List Code)
    (P : ℕ) (hempty : files = []) :
    reduce_to_next_level dir files =
      Except.error ("No files in ".toList ++ dir ++ ", aborting".toList) ∧
    raster_sum (List.replicate P ([] : List (RawRaster ι)))
      (List.replicate P 0) 0 [] = Except.ok none := by
  constructor
  · rw [reduce_to_next_level, if_pos hempty]
  · have hfind : supervise (List.replicate P (0 : ℤ)) = none := by
      rw [supervise, List.find?_eq_none]
      intro c hc
      have := List.eq_of_mem_replicate hc
      simp [this]
    rw [raster_sum, hfind]
    simp [worker]

theorem claim_C8_empty_input_witness :
    ([] : List Code) = [] ∧
    reduce_to_next_level "in".toList [] =
      Except.error ("No files in ".toList ++ "in".toList ++ ", aborting".toList) :=
  ⟨rfl,
   (claim_C8_empty_input (ι := Fin 1) "in".toList [] 2 rfl).1⟩

-- Bucketing lemmas and claims ------------------------------------------

theorem splitOnDot_no_dot (code : List Char) (h : '.' ∉ code) :
    splitOnDot code = [code] := by
  induction code with
  | nil => rfl
  | cons c rest ih =>
    have hc : ¬ c = '.' := fun he => h (he ▸ List.mem_cons_self c rest)
    rw [splitOnDot, if_neg hc, ih (fun hm => h (List.mem_cons_of_mem _ hm))]

/-- Claim C6 counterexample: the intermediate-level bucketing rule as
claimed ("the code with its last dot-segment removed, or `top` when the
code contains no dot") fails for a code such as `".x"`: it contains a
dot, removing its last dot-segment leaves the empty string, and the code
buckets it under the literal `"top"`, not under the empty-string key. -/
theorem claim_C6_counterexample :
    '.' ∈ ('.' :: ['x']) ∧
    joinDots ((splitOnDot ('.' :: ['x'])).dropLast) = [] ∧
    next_level_threat_id ('.' :: ['x']) = topKey ∧
    topKey ≠ ([] : List Char) := by
  refine ⟨List.mem_cons_self _ _, rfl, rfl, ?_⟩
  intro h
  exact List.cons_ne_nil _ _ h

/-- Claim C6 (amended): at the leaf stage a threat-code directory name of
two or three dot-segments buckets under its first two dot-segments and a
code of fewer than two segments is a fatal assertion error; at
intermediate stages a file named `{code}.tif` buckets under the code with
its last dot-segment removed, except that when that prefix is the empty
string (in particular whenever the code contains no dot) it buckets under
the literal key `"top"`. -/
theorem claim_C6_hierarchy_bucketing (code : Code) :
    ((splitOnDot code).length = 2 ∨ (splitOnDot code).length = 3 →
      leaf_bucket_key code = some (joinDots ((splitOnDot code).take 2))) ∧
    ((splitOnDot code).length < 2 → leaf_bucket_key code = none) ∧
    ('.' ∉ code → next_level_threat_id code = topKey) ∧
    (joinDots ((splitOnDot code).dropLast) ≠ [] →
      next_level_threat_id code = joinDots ((splitOnDot code).dropLast)) := by
  refine ⟨?_, ?_, ?_, ?_⟩
  · intro h
    rcases h with h | h <;> simp [leaf_bucket_key, h]
  · intro h
    have hn : ¬ (splitOnDot code).length > 1 := by omega
    simp [leaf_bucket_key, hn]
  · intro h
    rw [next_level_threat_id, splitOnDot_no_dot code h]
    rfl
  · intro h
    rw [next_level_threat_id]
    simp only [if_neg h]

theorem claim_C6_hierarchy_bucketing_witness :
    (splitOnDot "2.1.1".toList).length = 3 ∧
    leaf_bucket_key "2.1.1".toList = some "2.1".toList ∧
    leaf_bucket_key "2.1.2".toList = some "2.1".toList ∧
    leaf_bucket_key "2.3".toList = some "2.3".toList ∧
    leaf_bucket_key "2".toList = none ∧
    next_level_threat_id "2.1".toList = "2".toList ∧
    next_level_threat_id "2".toList = topKey := by
  refine ⟨by decide, ?_, ?_, ?_, ?_, ?_, ?_⟩
  · exact ((claim_C6_hierarchy_bucketing "2.1.1".toList).1
      (Or.inr (by decide))).trans (by decide)
  · exact ((claim_C6_hierarchy_bucketing "2.1.2".toList).1
      (Or.inr (by decide))).trans (by decide)
  · exact ((claim_C6_hierarchy_bucketing "2.3".toList).1
      (Or.inl (by decide))).trans (by decide)
  · exact (claim_C6_hierarchy_bucketing "2".toList).2.1 (by decide)
  · exact ((claim_C6_hierarchy_bucketing "2.1".toList).2.2.2
      (by decide)).trans (by decide)
  · exact (claim_C6_hierarchy_bucketing "2".toList).2.2.1 (by decide)

-- Sidecar claims -------------------------------------------------------

/-- Claim C9 counterexample: a sidecar file that is *present but
unreadable or malformed* raises an exception outside the handled
`(FileNotFoundError, KeyError)` pair, so the decomposer dies instead of
falling back to the computed raster sum of `5` that the claim demands. -/
theorem claim_C9_counterexample :
    read_aoh_total SidecarState.unreadable 5 = Except.error () ∧
    (Except.error () : Except Unit ℚ) ≠ Except.ok (5 : ℚ) :=
  ⟨rfl, fun h => Except.noConfusion h⟩

/-- Claim C9 (amended): `aoh_total` comes from the sidecar when it is
present and well-formed; an *absent* sidecar file or a sidecar lacking
the `"aoh_total"` key falls back to the computed raster sum without
error; but a sidecar that is present and unreadable/malformed is fatal
(its exception is not among the handled ones). -/
theorem claim_C9_sidecar_fallback (t v : ℚ) :
    read_aoh_total SidecarState.absent t = Except.ok t ∧
    read_aoh_total SidecarState.missingKey t = Except.ok t ∧
    read_aoh_total (SidecarState.wellFormed v) t = Except.ok v ∧
    read_aoh_total SidecarState.unreadable t = Except.error () :=
  ⟨rfl, rfl, rfl, rfl⟩

-- Decomposer lemmas and claims -----------------------------------------

theorem threat_loop_ok (total : ℤ) (w : Raster ι) (l : List (Code × ℤ))
    (h : total ≠ 0) :
    threat_loop total w l = Except.ok (l.map (fun tw =>
      (tw.1, fun i => w i * ((tw.2 : ℚ) / (total : ℚ))))) := by
  induction l with
  | nil => rfl
  | cons tw rest ih =>
    rw [threat_loop, pyIntDiv, if_neg h, ih]
    rfl

theorem list_sum_div_self (l : List ℤ) (X : ℚ) (h : ((l.sum : ℤ) : ℚ) ≠ 0) :
    (l.map (fun (w : ℤ) => X * ((w : ℚ) / ((l.sum : ℤ) : ℚ)))).sum = X := by
  have h1 : (l.map (fun (w : ℤ) => X * ((w : ℚ) / ((l.sum : ℤ) : ℚ)))).sum
      = X / ((l.sum : ℤ) : ℚ) * (l.map (fun (x : ℤ) => (x : ℚ))).sum := by
    rw [← List.sum_map_mul_left]
    congr 1
    apply List.map_congr_left
    intro w _
    ring
  have h2 : (l.map (fun (x : ℤ) => (x : ℚ))).sum = ((l.sum : ℤ) : ℚ) :=
    (Int.cast_list_sum l).symm
  rw [h1, h2, div_mul_cancel₀ X h]

/-- Claim C1: decomposition conservation.  For a species threat record
with non-empty threats and positive integer weights, the decomposer
succeeds and emits, per `(threat_code, weight)` pair, exactly
`(aoh / aoh_total) * category_weight * (weight / total_weight)`; the
cell-wise sum of all emitted rasters is `(aoh / aoh_total) *
category_weight` (exactly, over exact arithmetic). -/
theorem claim_C1_decomposition_conservation (aoh : Raster ι)
    (aoh_total : ℚ) (category_weight : ℤ) (threat_data : List (Code × ℤ))
    (hne : threat_data ≠ []) (hpos : ∀ tw ∈ threat_data, 0 < tw.2) :
    threat_processing_per_species aoh aoh_total category_weight threat_data =
      Except.ok (threat_data.map (fun tw =>
        (tw.1, fun i => aoh i / aoh_total * (category_weight : ℚ) *
          ((tw.2 : ℚ) / ((total_threat_weight threat_data : ℤ) : ℚ))))) ∧
    sumList (threat_data.map (fun tw =>
        (fun i => aoh i / aoh_total * (category_weight : ℚ) *
          ((tw.2 : ℚ) / ((total_threat_weight threat_data : ℤ) : ℚ)) : Raster ι))) =
      fun i => aoh i / aoh_total * (category_weight : ℚ) := by
  have htot : 0 < total_threat_weight threat_data := by
    apply List.sum_pos
    · intro x hx
      rcases List.mem_map.mp hx with ⟨tw, htw, rfl⟩
      exact hpos tw htw
    · simp [hne]
  constructor
  · exact threat_loop_ok (total_threat_weight threat_data) _ threat_data
      (ne_of_gt htot)
  · funext i
    rw [sumList_apply, List.map_map]
    have hcast : ((total_threat_weight threat_data : ℤ) : ℚ) ≠ 0 := by
      exact_mod_cast (ne_of_gt htot)
    have hmm : (threat_data.map ((fun r => r i) ∘ (fun tw =>
        (fun j => aoh j / aoh_total * (category_weight : ℚ) *
          ((tw.2 : ℚ) / ((total_threat_weight threat_data : ℤ) : ℚ)) : Raster ι)))) =
        ((threat_data.map Prod.snd).map (fun (w : ℤ) =>
          (aoh i / aoh_total * (category_weight : ℚ)) *
            ((w : ℚ) / (((threat_data.map Prod.snd).sum : ℤ) : ℚ)))) := by
      rw [List.map_map]
      apply List.map_congr_left
      intro tw _
      rfl
    rw [hmm, list_sum_div_self _ _ ?_]
    exact hcast

theorem claim_C1_decomposition_conservation_witness :
    (([("2.1".toList, (30 : ℤ)), ("7.3".toList, (10 : ℤ))] : List (Code × ℤ)) ≠ [] ∧
      ∀ tw ∈ ([("2.1".toList, (30 : ℤ)), ("7.3".toList, (10 : ℤ))] : List (Code × ℤ)),
        0 < tw.2) ∧
    total_threat_weight [("2.1".toList, (30 : ℤ)), ("7.3".toList, (10 : ℤ))] = 40 ∧
    threat_processing_per_species (fun _ => (2 : ℚ) : Raster (Fin 1)) 4 400
        [("2.1".toList, (30 : ℤ)), ("7.3".toList, (10 : ℤ))] =
      Except.ok [("2.1".toList, fun _ => (150 : ℚ)), ("7.3".toList, fun _ => (50 : ℚ))] := by
  refine ⟨⟨List.cons_ne_nil _ _, by decide⟩, by decide, ?_⟩
  exact ((claim_C1_decomposition_conservation (fun _ => (2 : ℚ) : Raster (Fin 1))
    4 400 [("2.1".toList, (30 : ℤ)), ("7.3".toList, (10 : ℤ))]
    (List.cons_ne_nil _ _) (by decide)).1).trans
    (congrArg Except.ok (by
      have h40 : total_threat_weight
          [("2.1".toList, (30 : ℤ)), ("7.3".toList, (10 : ℤ))] = 40 := rfl
      simp only [h40, List.map_cons, List.map_nil, List.cons.injEq,
        Prod.mk.injEq]
      refine ⟨⟨trivial, ?_⟩, ⟨trivial, ?_⟩, trivial⟩ <;> funext i <;> norm_num))

/-- Claim C7 counterexample: a record whose `threats` list is *empty*
also has total weight zero, yet the decomposer does not signal any
validation error there — it completes successfully having emitted no
contribution raster at all (the loop body never runs, then the sentinel
is touched and the process exits 0). -/
theorem claim_C7_counterexample :
    total_threat_weight ([] : List (Code × ℤ)) = 0 ∧
    threat_processing_per_species (fun _ => (1 : ℚ) : Raster (Fin 1)) 1 400 [] =
      Except.ok [] :=
  ⟨rfl, rfl⟩

/-- Claim C7 (amended): for a *non-empty* threats list whose weights sum
to zero, the decomposer aborts with an unhandled `ZeroDivisionError` at
the first `weight / total_threat_weight` — it neither silently produces
NaN/Inf output nor succeeds; but an empty threats list completes
successfully without emitting anything (see the counterexample). -/
theorem claim_C7_zero_total_weight (aoh : Raster ι) (aoh_total : ℚ)
    (category_weight : ℤ) (threat_data : List (Code × ℤ))
    (hne : threat_data ≠ []) (h0 : total_threat_weight threat_data = 0) :
    threat_processing_per_species aoh aoh_total category_weight threat_data =
      Except.error () := by
  match threat_data with
  | [] => exact absurd rfl hne
  | tw :: rest =>
    have hdiv : pyIntDiv tw.2 (total_threat_weight (tw :: rest)) =
        Except.error () := by
      rw [h0, pyIntDiv, if_pos rfl]
    show threat_loop (total_threat_weight (tw :: rest)) _ (tw :: rest) = _
    rw [threat_loop, hdiv]

theorem claim_C7_zero_total_weight_witness :
    (([("2.1".toList, (0 : ℤ))] : List (Code × ℤ)) ≠ [] ∧
      total_threat_weight [("2.1".toList, (0 : ℤ))] = 0) ∧
    threat_processing_per_species (fun _ => (1 : ℚ) : Raster (Fin 1)) 1 400
        [("2.1".toList, (0 : ℤ))] = Except.error () :=
  ⟨⟨List.cons_ne_nil _ _, rfl⟩,
   claim_C7_zero_total_weight (fun _ => (1 : ℚ)) 1 400
     [("2.1".toList, (0 : ℤ))] (List.cons_ne_nil _ _) rfl⟩

-- SpeciesReport lemmas and claim ---------------------------------------

theorem setattr_tracked (r : SpeciesReport) (d : String → Option PyObj)
    (h : r.attrs "info" = some (PyObj.pydict d)) (name : String)
    (v : PyObj) (hname : name ∈ REPORT_COLUMNS) :
    r.setattr name v = Except.ok (SpeciesReport.mk (fun k =>
      if k = name then some v
      else if k = "info" then
        some (PyObj.pydict (fun j => if j = name then some v else d j))
      else r.attrs k)) := by
  rw [SpeciesReport.setattr, if_pos hname, h]

theorem setattr_untracked (r : SpeciesReport) (name : String) (v : PyObj)
    (hname : name ∉ REPORT_COLUMNS) :
    r.setattr name v = Except.ok (SpeciesReport.mk (fun k =>
      if k = name then some v else r.attrs k)) := by
  rw [SpeciesReport.setattr, if_neg hname]

theorem updDict_cons (d : String → Option PyObj) (p : String × PyObj)
    (seq : List (String × PyObj)) :
    updDict d (p :: seq) =
      updDict (if p.1 ∈ REPORT_COLUMNS then
        fun j => if j = p.1 then some p.2 else d j else d) seq := rfl

theorem lastAttr_cons (k : String) (p : String × PyObj)
    (seq : List (String × PyObj)) (dflt : Option PyObj) :
    lastAttr k (p :: seq) dflt =
      lastAttr k seq (if p.1 = k then some p.2 else dflt) := rfl

theorem lastVal_cons (k : String) (p : String × PyObj)
    (seq : List (String × PyObj)) (dflt : PyObj) :
    lastVal k (p :: seq) dflt =
      lastVal k seq (if p.1 = k then p.2 else dflt) := rfl

theorem lastVal_append (k : String) (l₁ l₂ : List (String × PyObj))
    (d : PyObj) :
    lastVal k (l₁ ++ l₂) d = lastVal k l₂ (lastVal k l₁ d) :=
  List.foldl_append _ _ _ _

/-- An assignment sequence that never touches the attribute `"info"`
succeeds from any state whose `info` attribute holds a dict, and its
effect is: the dict accumulates the tracked assignments, the attribute
dict accumulates every assignment. -/
theorem applyAll_ok (seq : List (String × PyObj))
    (hno : ∀ p ∈ seq, p.1 ≠ "info") (r : SpeciesReport)
    (d : String → Option PyObj)
    (h : r.attrs "info" = some (PyObj.pydict d)) :
    r.applyAll seq = Except.ok (SpeciesReport.mk (fun k =>
      if k = "info" then some (PyObj.pydict (updDict d seq))
      else lastAttr k seq (r.attrs k))) := by
  induction seq generalizing r d with
  | nil =>
    show Except.ok r = _
    have hfun : (fun k =>
        if k = "info" then some (PyObj.pydict (updDict d []))
        else lastAttr k [] (r.attrs k)) = r.attrs := by
      funext k
      by_cases hk : k = "info"
      · subst hk
        rw [if_pos rfl]
        exact h.symm
      · rw [if_neg hk]
        rfl
    rw [hfun]
  | cons p seq ih =>
    have hp : p.1 ≠ "info" := hno p (List.mem_cons_self _ _)
    have hno' : ∀ q ∈ seq, q.1 ≠ "info" :=
      fun q hq => hno q (List.mem_cons_of_mem _ hq)
    by_cases hpc : p.1 ∈ REPORT_COLUMNS
    · have hstep : r.applyAll (p :: seq) =
          (SpeciesReport.mk (fun k =>
            if k = p.1 then some p.2
            else if k = "info" then
              some (PyObj.pydict (fun j => if j = p.1 then some p.2 else d j))
            else r.attrs k)).applyAll seq := by
        rw [SpeciesReport.applyAll, setattr_tracked r d h p.1 p.2 hpc]
      have hinfo1 : (SpeciesReport.mk (fun k =>
          if k = p.1 then some p.2
          else if k = "info" then
            some (PyObj.pydict (fun j => if j = p.1 then some p.2 else d j))
          else r.attrs k)).attrs "info" =
          some (PyObj.pydict (fun j => if j = p.1 then some p.2 else d j)) := by
        show (if ("info" : String) = p.1 then some p.2 else
          if ("info" : String) = "info" then
            some (PyObj.pydict (fun j => if j = p.1 then some p.2 else d j))
          else r.attrs "info") = _
        rw [if_neg (fun hx => hp hx.symm), if_pos rfl]
      rw [hstep, ih hno' _ _ hinfo1]
      congr 1
      congr 1
      funext k
      by_cases hk : k = "info"
      · subst hk
        rw [if_pos rfl, if_pos rfl]
        have hupd : updDict d (p :: seq) =
            updDict (fun j => if j = p.1 then some p.2 else d j) seq := by
          rw [updDict_cons, if_pos hpc]
        rw [hupd]
      · rw [if_neg hk, if_neg hk, lastAttr_cons]
        congr 1
        show (if k = p.1 then some p.2 else
          if k = "info" then
            some (PyObj.pydict (fun j => if j = p.1 then some p.2 else d j))
          else r.attrs k) = if p.1 = k then some p.2 else r.attrs k
        by_cases hk2 : k = p.1
        · rw [if_pos hk2, if_pos hk2.symm]
        · rw [if_neg hk2, if_neg hk, if_neg (fun hx => hk2 hx.symm)]
    · have hstep : r.applyAll (p :: seq) =
          (SpeciesReport.mk (fun k =>
            if k = p.1 then some p.2 else r.attrs k)).applyAll seq := by
        rw [SpeciesReport.applyAll, setattr_untracked r p.1 p.2 hpc]
      have hinfo1 : (SpeciesReport.mk (fun k =>
          if k = p.1 then some p.2 else r.attrs k)).attrs "info" =
          some (PyObj.pydict d) := by
        show (if ("info" : String) = p.1 then some p.2 else r.attrs "info") = _
        rw [if_neg (fun hx => hp hx.symm)]
        exact h
      rw [hstep, ih hno' _ _ hinfo1]
      congr 1
      congr 1
      funext k
      by_cases hk : k = "info"
      · subst hk
        rw [if_pos rfl, if_pos rfl]
        have hupd : updDict d (p :: seq) = updDict d seq := by
          rw [updDict_cons, if_neg hpc]
        rw [hupd]
      · rw [if_neg hk, if_neg hk, lastAttr_cons]
        congr 1
        show (if k = p.1 then some p.2 else r.attrs k) =
          if p.1 = k then some p.2 else r.attrs k
        by_cases hk2 : k = p.1
        · rw [if_pos hk2, if_pos hk2.symm]
        · rw [if_neg hk2, if_neg (fun hx => hk2 hx.symm)]

theorem rowOf_ok (d : String → Option PyObj) (g : String → PyObj)
    (l : List String) (h : ∀ k ∈ l, d k = some (g k)) :
    rowOf d l = Except.ok (l.map g) := by
  induction l with
  | nil => rfl
  | cons k ks ih =>
    rw [rowOf, h k (List.mem_cons_self _ _),
      ih (fun j hj => h j (List.mem_cons_of_mem _ hj))]
    rfl

theorem updDict_mem (seq : List (String × PyObj))
    (d : String → Option PyObj) (k : String) (hk : k ∈ REPORT_COLUMNS) :
    updDict d seq k = lastAttr k seq (d k) := by
  induction seq generalizing d with
  | nil => rfl
  | cons p seq ih =>
    rw [updDict_cons, lastAttr_cons]
    by_cases hp : p.1 ∈ REPORT_COLUMNS
    · rw [if_pos hp, ih]
      congr 1
      show (if k = p.1 then some p.2 else d k) =
        if p.1 = k then some p.2 else d k
      by_cases hk2 : k = p.1
      · rw [if_pos hk2, if_pos hk2.symm]
      · rw [if_neg hk2, if_neg (fun hx => hk2 hx.symm)]
    · rw [if_neg hp, ih]
      congr 1
      rw [if_neg (fun hx : p.1 = k => hp (hx ▸ hk))]

theorem lastAttr_some (seq : List (String × PyObj)) (k : String)
    (v : PyObj) :
    lastAttr k seq (some v) = some (lastVal k seq v) := by
  induction seq generalizing v with
  | nil => rfl
  | cons p seq ih =>
    rw [lastAttr_cons, lastVal_cons]
    by_cases hp : p.1 = k
    · rw [if_pos hp, if_pos hp, ih]
    · rw [if_neg hp, if_neg hp, ih]

theorem initDict_last (a b c : PyObj) (k : String)
    (hk : k ∈ REPORT_COLUMNS) :
    initDict a b c k = some (lastVal k [("id_no", a), ("assessment_id", b),
      ("scientific_name", c)] (PyObj.pybool false)) := by
  by_cases h3 : k = "scientific_name"
  · subst h3; rfl
  · by_cases h2 : k = "assessment_id"
    · subst h2; rfl
    · by_cases h1 : k = "id_no"
      · subst h1; rfl
      · show (if k = "scientific_name" then some c
          else if k = "assessment_id" then some b
          else if k = "id_no" then some a
          else baseDict k) =
          some (if ("scientific_name" : String) = k then c
            else if ("assessment_id" : String) = k then b
            else if ("id_no" : String) = k then a
            else PyObj.pybool false)
        rw [if_neg h3, if_neg h2, if_neg h1,
          if_neg (fun hx => h3 hx.symm), if_neg (fun hx => h2 hx.symm),
          if_neg (fun hx => h1 hx.symm)]
        show (if k ∈ REPORT_COLUMNS then some (PyObj.pybool false)
          else none) = some (PyObj.pybool false)
        rw [if_pos hk]

theorem init_eq (a b c : PyObj) :
    SpeciesReport.init a b c = Except.ok (initReport a b c) := by
  have hinfo : ("info" : String) ∉ REPORT_COLUMNS := by decide
  have hstep : SpeciesReport.init a b c =
      (SpeciesReport.mk (fun k =>
        if k = "info" then some (PyObj.pydict baseDict) else none)).applyAll
        [("id_no", a), ("assessment_id", b), ("scientific_name", c)] := by
    rw [SpeciesReport.init, SpeciesReport.applyAll,
      setattr_untracked _ _ _ hinfo]
  have h0 : (SpeciesReport.mk (fun k =>
      if k = "info" then some (PyObj.pydict baseDict) else none)).attrs
        "info" = some (PyObj.pydict baseDict) := by
    show (if ("info" : String) = "info" then some (PyObj.pydict baseDict)
      else none) = _
    rw [if_pos rfl]
  have hno3 : ∀ p ∈ ([("id_no", a), ("assessment_id", b),
      ("scientific_name", c)] : List (String × PyObj)), p.1 ≠ "info" := by
    intro p hp
    simp only [List.mem_cons, List.not_mem_nil, or_false] at hp
    rcases hp with h | h | h
    · rw [h]; exact (by decide : ("id_no" : String) ≠ "info")
    · rw [h]; exact (by decide : ("assessment_id" : String) ≠ "info")
    · rw [h]; exact (by decide : ("scientific_name" : String) ≠ "info")
  rw [hstep, applyAll_ok _ hno3 _ baseDict h0]
  congr 1
  rw [initReport]
  congr 1
  funext k
  by_cases h3 : k = "scientific_name"
  · subst h3; rfl
  · by_cases h2 : k = "assessment_id"
    · subst h2; rfl
    · by_cases h1 : k = "id_no"
      · subst h1; rfl
      · by_cases hi : k = "info"
        · subst hi; rfl
        · rw [if_neg hi]
          show (if ("scientific_name" : String) = k then some c
            else if ("assessment_id" : String) = k then some b
            else if ("id_no" : String) = k then some a
            else if k = "info" then some (PyObj.pydict baseDict) else none) =
            (if k = "scientific_name" then some c
            else if k = "assessment_id" then some b
            else if k = "id_no" then some a
            else if k = "info" then some (PyObj.pydict (initDict a b c))
            else none)
          rw [if_neg (fun hx => h3 hx.symm), if_neg (fun hx => h2 hx.symm),
            if_neg (fun hx => h1 hx.symm), if_neg hi, if_neg h3, if_neg h2,
            if_neg h1, if_neg hi]

/-- Claim C10 counterexample: assigning the attribute `info` itself
rebinds the very dict through which tracked assignments and `as_row()`
operate, so the claimed row is not returned for every assignment
sequence.  Rebinding `info` to the non-dict `5` makes `as_row()` raise
`TypeError`; rebinding it to a fresh empty dict makes `as_row()` raise
`KeyError` after a tracked assignment.  In both runs the result is an
exception, not the row of `REPORT_COLUMNS` values the claim demands. -/
theorem claim_C10_counterexample :
    runReport (PyObj.pyint 1) (PyObj.pyint 2) (PyObj.pystr "name")
      [("info", PyObj.pyint 5)] = Except.error () ∧
    runReport (PyObj.pyint 1) (PyObj.pyint 2) (PyObj.pystr "name")
      [("info", PyObj.pydict (fun _ => none)),
       ("has_threats", PyObj.pybool true)] = Except.error () ∧
    (Except.error () : Except Unit (List PyObj)) ≠
      Except.ok (REPORT_COLUMNS.map (fun k =>
        lastVal k ([("id_no", PyObj.pyint 1), ("assessment_id", PyObj.pyint 2),
          ("scientific_name", PyObj.pystr "name")] ++
            [("info", PyObj.pyint 5)]) (PyObj.pybool false))) :=
  ⟨rfl, rfl, fun h => Except.noConfusion h⟩

/-- Claim C10 (amended): SpeciesReport tracked-field invariant.  On a
fresh report every tracked `REPORT_COLUMNS` field other than the three
identity fields reads `False`, and an attribute that is neither tracked
nor ever assigned (the constructor assigns `info` and the three identity
fields) reads `None` without raising; and after any sequence of
attribute assignments *in which the name `info` is never assigned*,
every assignment succeeds and `as_row()` returns exactly the
`REPORT_COLUMNS` values in declaration order, each the last value
assigned to that tracked name (`False` when never assigned).  Assigning
`info` itself rebinds the tracked dict and breaks this (see the
counterexample). -/
theorem claim_C10_species_report (a b c : PyObj) (name : String)
    (seq : List (String × PyObj)) (hseq : ∀ p ∈ seq, p.1 ≠ "info") :
    SpeciesReport.init a b c = Except.ok (initReport a b c) ∧
    (name ∈ REPORT_COLUMNS →
      name ∉ (["id_no", "assessment_id", "scientific_name"] : List String) →
      (initReport a b c).getattr name = Except.ok (PyObj.pybool false)) ∧
    (name ∉ REPORT_COLUMNS → name ≠ "info" →
      (initReport a b c).getattr name = Except.ok PyObj.pynone) ∧
    runReport a b c seq = Except.ok (REPORT_COLUMNS.map (fun k =>
      lastVal k ([("id_no", a), ("assessment_id", b),
        ("scientific_name", c)] ++ seq) (PyObj.pybool false))) := by
  have hinfoRC : ("info" : String) ∉ REPORT_COLUMNS := by decide
  refine ⟨init_eq a b c, ?_, ?_, ?_⟩
  · intro hmem hnot
    simp only [List.mem_cons, not_or] at hnot
    obtain ⟨hn1, hn2, hn3, -⟩ := hnot
    have hni : name ≠ "info" := fun hx => hinfoRC (hx ▸ hmem)
    have hattr : (initReport a b c).attrs name = none := by
      show (if name = "scientific_name" then some c
        else if name = "assessment_id" then some b
        else if name = "id_no" then some a
        else if name = "info" then some (PyObj.pydict (initDict a b c))
        else none) = none
      rw [if_neg hn3, if_neg hn2, if_neg hn1, if_neg hni]
    have hdict : initDict a b c name = some (PyObj.pybool false) := by
      show (if name = "scientific_name" then some c
        else if name = "assessment_id" then some b
        else if name = "id_no" then some a
        else baseDict name) = _
      rw [if_neg hn3, if_neg hn2, if_neg hn1]
      show (if name ∈ REPORT_COLUMNS then some (PyObj.pybool false)
        else none) = _
      rw [if_pos hmem]
    rw [SpeciesReport.getattr, hattr, if_pos hmem]
    show (match initDict a b c name with
      | some v => Except.ok v
      | none => Except.error ()) = Except.ok (PyObj.pybool false)
    rw [hdict]
  · intro hmem hni
    have hn1 : name ≠ "id_no" := fun hx =>
      hmem (hx ▸ (by decide : ("id_no" : String) ∈ REPORT_COLUMNS))
    have hn2 : name ≠ "assessment_id" := fun hx =>
      hmem (hx ▸ (by decide : ("assessment_id" : String) ∈ REPORT_COLUMNS))
    have hn3 : name ≠ "scientific_name" := fun hx =>
      hmem (hx ▸ (by decide : ("scientific_name" : String) ∈ REPORT_COLUMNS))
    have hattr : (initReport a b c).attrs name = none := by
      show (if name = "scientific_name" then some c
        else if name = "assessment_id" then some b
        else if name = "id_no" then some a
        else if name = "info" then some (PyObj.pydict (initDict a b c))
        else none) = none
      rw [if_neg hn3, if_neg hn2, if_neg hn1, if_neg hni]
    rw [SpeciesReport.getattr, hattr, if_neg hmem]
  · have hinit : (initReport a b c).attrs "info" =
        some (PyObj.pydict (initDict a b c)) := rfl
    have h1 : runReport a b c seq =
        match (initReport a b c).applyAll seq with
        | Except.error e => Except.error e
        | Except.ok r2 => r2.as_row := by
      rw [runReport, init_eq a b c]
    rw [h1, applyAll_ok seq hseq _ _ hinit]
    show rowOf (updDict (initDict a b c) seq) REPORT_COLUMNS = _
    apply rowOf_ok
    intro k hk
    rw [updDict_mem seq _ k hk, initDict_last a b c k hk, lastAttr_some,
      lastVal_append]

theorem claim_C10_species_report_witness :
    (∀ p ∈ ([("has_threats", PyObj.pybool true)] : List (String × PyObj)),
      p.1 ≠ "info") ∧
    ("possibly_extinct" : String) ∈ REPORT_COLUMNS ∧
    (initReport (PyObj.pyint 1) (PyObj.pyint 2)
      (PyObj.pystr "name")).getattr "possibly_extinct" =
      Except.ok (PyObj.pybool false) ∧
    runReport (PyObj.pyint 1) (PyObj.pyint 2) (PyObj.pystr "name")
      [("has_threats", PyObj.pybool true)] =
      Except.ok (REPORT_COLUMNS.map (fun k =>
        lastVal k ([("id_no", PyObj.pyint 1),
          ("assessment_id", PyObj.pyint 2),
          ("scientific_name", PyObj.pystr "name")] ++
            [("has_threats", PyObj.pybool true)]) (PyObj.pybool false))) := by
  have hseq : ∀ p ∈ ([("has_threats", PyObj.pybool true)] :
      List (String × PyObj)), p.1 ≠ "info" := by
    intro p hp
    simp only [List.mem_cons, List.not_mem_nil, or_false] at hp
    rw [hp]
    exact (by decide : ("has_threats" : String) ≠ "info")
  refine ⟨hseq, by decide, ?_, ?_⟩
  · exact (claim_C10_species_report (PyObj.pyint 1) (PyObj.pyint 2)
      (PyObj.pystr "name") "possibly_extinct" _ hseq).2.1
      (by decide) (by decide)
  · exact (claim_C10_species_report (PyObj.pyint 1) (PyObj.pyint 2)
      (PyObj.pystr "name") "possibly_extinct" _ hseq).2.2.2
